import Mathlib

/-
  Verification development for the react-guardian runtime monitor.

  Shallow embedding of the core engines:
    - Telemetry Pipeline   (src/Reporter.ts)
    - Recovery Engine      (src/RecoveryEngine.ts)
    - Auto-Correct Engine  (src/AutoCorrect.ts)
    - Layout Anomaly Detector (src/LayoutWatcher.ts)

  The embedding is sequential: each TypeScript method becomes a pure Lean
  function from explicit state to state, returning the observable events
  (network sends, sink calls, callbacks, delays) it would have emitted.
  JavaScript numbers used for geometry are modelled as rationals; machine
  timestamps and DOM contents are opaque payload data.
-/

namespace ReactGuardian

/-! ## Telemetry Pipeline (src/Reporter.ts) -/

/-- The `GuardianError` record from src/types.ts. `metadata` is an open
    `Record<string, any>` in the source; it is carried as opaque key/value
    strings here since no code under test inspects it. -/
structure GuardianError where
  message : String
  stack : Option String := none
  componentStack : Option String := none
  errorBoundary : Option String := none
  timestamp : Nat
  userId : Option String := none
  sessionId : Option String := none
  userAgent : Option String := none
  url : Option String := none
  metadata : List (String × String) := []
deriving Repr, DecidableEq

/-- Observable effects of the Reporter: a network send of a batch to the
    endpoint (a `fetch` that was issued), an invocation of the configured
    custom reporter sink, and an append of a record to the pending queue. -/
inductive RepEvent where
  | netSend (endpoint : String) (batch : List GuardianError)
  | sinkCall (e : GuardianError)
  | enqueued (e : GuardianError)
deriving Repr, DecidableEq

/-- Recognizer for network-send events. -/
def RepEvent.isNetSend : RepEvent → Bool
  | .netSend _ _ => true
  | _ => false

/-- The merged `ReporterConfig` stored on the `Reporter` instance.
    Optional numeric fields stay optional because their use sites apply the
    JavaScript `||` default again; the custom reporter is a function that may
    throw (modelled as `Except Unit`). The constructor defaults `enabled` to
    `true` unless the caller overrides it. -/
structure ReporterConfig where
  endpoint : Option String := none
  apiKey : Option String := none
  batchSize : Option Nat := some 10
  flushInterval : Option Nat := some 5000
  customReporter : Option (GuardianError → Except Unit Unit) := none
  enabled : Bool := true

/-- JavaScript `x || d` on an optional number: `undefined` and `0` are both
    falsy and fall through to the default. -/
def jsOrNat (x : Option Nat) (d : Nat) : Nat :=
  match x with
  | none => d
  | some 0 => d
  | some n => n

/-- `Reporter.flush` (src/Reporter.ts lines 51–84). The queue is swapped out,
    the batch is posted, and on delivery failure the batch is unshifted back
    only when the queue currently holds fewer than 100 records. `arrivals`
    models the records pushed onto the queue while the `fetch` was awaited;
    sequential callers pass `[]`. `delivery = false` covers both a rejected
    fetch and a non-ok response status. -/
def flushWith (c : ReporterConfig) (delivery : Bool) (arrivals : List GuardianError)
    (q : List GuardianError) : List GuardianError × List RepEvent :=
  match c.endpoint with
  | none => (q, [])
  | some ep =>
    if q.length = 0 then (q, [])
    else
      let errorsToSend := q
      let qDuring := arrivals
      if delivery then (qDuring, [RepEvent.netSend ep errorsToSend])
      else
        ((if qDuring.length < 100 then errorsToSend ++ qDuring else qDuring),
         [RepEvent.netSend ep errorsToSend])

/-- `Reporter.flush` with no interleaved reports during the awaited send. -/
def flush (c : ReporterConfig) (delivery : Bool) (q : List GuardianError) :
    List GuardianError × List RepEvent :=
  flushWith c delivery [] q

/-- `Reporter.report` (src/Reporter.ts lines 24–46). Returns `Except` to make
    the exception behavior explicit: a throwing custom reporter is caught
    (logged) and the method completes normally, so every path is `.ok`. -/
def report (c : ReporterConfig) (delivery : Bool) (q : List GuardianError)
    (e : GuardianError) : Except Unit (List GuardianError × List RepEvent) :=
  if !c.enabled then .ok (q, [])
  else
    let q1 := q ++ [e]
    let ev1 := [RepEvent.enqueued e]
    match c.customReporter with
    | some sink =>
      match sink e with
      | .ok _ => .ok (q1, ev1 ++ [RepEvent.sinkCall e])
      | .error _ => .ok (q1, ev1 ++ [RepEvent.sinkCall e])
    | none =>
      if q1.length ≥ jsOrNat c.batchSize 10 then
        let r := flushWith c delivery [] q1
        .ok (r.1, ev1 ++ r.2)
      else .ok (q1, ev1)

/-- Sequential driver: fold `report` over successive records, accumulating
    the emitted events. (`report` is total and always `.ok`; the `.error`
    branch is unreachable and returns the state unchanged.) -/
def reportStep (c : ReporterConfig) (delivery : Bool)
    (acc : List GuardianError × List RepEvent) (e : GuardianError) :
    List GuardianError × List RepEvent :=
  match report c delivery acc.1 e with
  | .ok (q, ev) => (q, acc.2 ++ ev)
  | .error _ => acc

/-- Report a whole list of records in order, starting from queue `q0`. -/
def reportRun (c : ReporterConfig) (delivery : Bool) (q0 : List GuardianError)
    (errs : List GuardianError) : List GuardianError × List RepEvent :=
  errs.foldl (reportStep c delivery) (q0, [])

/-- A concrete error record used by witnesses and counterexamples. -/
def mkErr (n : Nat) : GuardianError :=
  { message := toString n, timestamp := n }

/-! ## Recovery Engine (src/RecoveryEngine.ts) -/

/-- The closed set of recovery strategies from src/types.ts. -/
inductive RecoveryStrategy where
  | retry | fallback | reload | redirect | custom
deriving Repr, DecidableEq

/-- `RecoveryAction` from src/types.ts. React components are not
    representable, so `fallbackComponent` keeps only its presence;
    `customAction` keeps presence plus whether the procedure completes
    without throwing (`some true`) or throws (`some false`). -/
structure RecoveryAction where
  strategy : RecoveryStrategy
  fallbackComponent : Option Unit := none
  redirectUrl : Option String := none
  retryCount : Option Nat := none
  maxRetries : Option Nat := none
  customAction : Option Bool := none
deriving Repr, DecidableEq

/-- `RecoveryEngineConfig` from src/types.ts; `onRecovery` is recorded as an
    event rather than stored as a function. -/
structure RecoveryEngineConfig where
  enabled : Bool
  strategies : List RecoveryStrategy
  maxRetries : Nat
  fallbackComponent : Option Unit := none
deriving Repr, DecidableEq

/-- The mutable instance fields of `RecoveryEngine`. -/
structure RecoveryEngineState where
  retryCount : Nat := 0
  isRecovering : Bool := false
deriving Repr, DecidableEq

/-- Observable effects of `RecoveryEngine.execute`: the `onRecovery`
    callback, the backoff wait of the retry strategy, the reload request,
    the navigation of the redirect strategy (`none` = default home target),
    and the run of a caller-supplied custom procedure. -/
inductive REvent where
  | onRecovery (a : RecoveryAction)
  | delayMs (ms : Nat)
  | reloadIssued
  | redirectIssued (url : Option String)
  | customRan
deriving Repr, DecidableEq

/-- The exponential backoff of `handleRetry`:
    `Math.min(1000 * Math.pow(2, retryCount), 10000)`. -/
def backoffDelay (retryCount : Nat) : Nat :=
  min (1000 * 2 ^ retryCount) 10000

/-- `RecoveryEngine.handleRetry` (lines 76–92): reads the attempt count from
    the action (never from the engine), waits the backoff delay, and reports
    success whenever an attempt is still allowed. -/
def handleRetry (c : RecoveryEngineConfig) (a : RecoveryAction) :
    Bool × List REvent :=
  let maxRetries := jsOrNat a.maxRetries c.maxRetries
  let retryCount := jsOrNat a.retryCount 0
  if retryCount ≥ maxRetries then (false, [])
  else (true, [REvent.delayMs (backoffDelay retryCount)])

/-- `RecoveryEngine.handleFallback` (lines 97–115): succeeds iff the action
    or the config carries a fallback component. -/
def handleFallback (c : RecoveryEngineConfig) (a : RecoveryAction) :
    Bool × List REvent :=
  if a.fallbackComponent.isSome then (true, [])
  else if c.fallbackComponent.isSome then (true, [])
  else (false, [])

/-- `RecoveryEngine.handleCustom` (lines 153–166): runs the caller-supplied
    procedure; a throw is caught and reported as failure; a missing
    procedure is a warned failure. -/
def handleCustom (a : RecoveryAction) : Bool × List REvent :=
  match a.customAction with
  | some true => (true, [REvent.customRan])
  | some false => (false, [REvent.customRan])
  | none => (false, [])

/-- `RecoveryEngine.performRecovery` (lines 50–71): dispatch on the strategy
    tag. `reload` and `redirect` issue the browser request and succeed. -/
def performRecovery (c : RecoveryEngineConfig) (a : RecoveryAction) :
    Bool × List REvent :=
  match a.strategy with
  | .retry => handleRetry c a
  | .fallback => handleFallback c a
  | .reload => (true, [REvent.reloadIssued])
  | .redirect => (true, [REvent.redirectIssued a.redirectUrl])
  | .custom => handleCustom a

/-- `RecoveryEngine.execute` (lines 15–45). The source is recursive
    (`return this.execute(action)` on failure below the retry cap), so the
    embedding carries fuel; any fuel ≥ 2 is faithful because the recursive
    call immediately hits the `isRecovering` guard and returns. Returns
    (result, final state, events in order). -/
def execute (c : RecoveryEngineConfig) :
    Nat → RecoveryEngineState → RecoveryAction →
    Bool × RecoveryEngineState × List REvent
  | 0, s, _ => (false, s, [])
  | fuel + 1, s, a =>
    if !c.enabled || s.isRecovering then (false, s, [])
    else
      let s1 : RecoveryEngineState := { s with isRecovering := true }
      let ev0 := [REvent.onRecovery a]
      let pr := performRecovery c a
      if pr.1 then
        (true, { retryCount := 0, isRecovering := false }, ev0 ++ pr.2)
      else
        if s1.retryCount < c.maxRetries then
          let s2 : RecoveryEngineState := { s1 with retryCount := s1.retryCount + 1 }
          let r := execute c fuel s2 a
          (r.1, r.2.1, ev0 ++ pr.2 ++ r.2.2)
        else
          (false, { s1 with isRecovering := false }, ev0 ++ pr.2)

/-- Number of strategy attempts in an event trace: `onRecovery` fires exactly
    once per non-guarded `execute` activation, i.e. once per
    `performRecovery` invocation. -/
def attemptCount (evs : List REvent) : Nat :=
  (evs.filter (fun e => match e with | .onRecovery _ => true | _ => false)).length

/-! ## Auto-Correct Engine (src/AutoCorrect.ts) -/

/-- The healing strategies of src/AutoCorrect.ts. -/
inductive AutoCorrectStrategy where
  | reloadComponent | restoreContent | fixLayout | injectFallback | retryRender
deriving Repr, DecidableEq

/-- `whitePageDetection` sub-config. -/
structure WhitePageDetectionConfig where
  enabled : Bool
  threshold : ℚ
  checkInterval : Nat
deriving Repr, DecidableEq

/-- `pageBreakDetection` sub-config. -/
structure PageBreakDetectionConfig where
  enabled : Bool
  selectors : List String
  minHeight : ℚ
deriving Repr, DecidableEq

/-- `visualHealing` sub-config. -/
structure VisualHealingConfig where
  enabled : Bool
  strategies : List AutoCorrectStrategy
deriving Repr, DecidableEq

/-- `AutoCorrectConfig` from src/AutoCorrect.ts (the `onAutoCorrect`
    callback is observed through events, not stored). -/
structure AutoCorrectConfig where
  enabled : Bool
  whitePageDetection : WhitePageDetectionConfig
  pageBreakDetection : PageBreakDetectionConfig
  visualHealing : VisualHealingConfig
deriving Repr, DecidableEq

/-- The mutable instance fields of `AutoCorrect`. Note that the
    `MutationObserver` of `startPageBreakDetection` and the
    `ResizeObserver` of `startVisualHealing` are local variables in the
    source and are NOT instance fields — only the white-page interval
    handle is retained. -/
structure AutoCorrectState where
  isRunning : Bool := false
  whitePageCheckInterval : Option Nat := none
  lastContentSnapshot : String := String.mk []
  contentHistory : List String := []
deriving Repr, DecidableEq

/-- The browser resources the engine allocates: live `setInterval` timers
    (by id) and attached observers. An attached observer keeps delivering
    callbacks until it is explicitly disconnected. -/
structure BrowserWorld where
  activeIntervals : List Nat := []
  nextTimerId : Nat := 0
  attachedMutationObservers : Nat := 0
  attachedResizeObservers : Nat := 0
deriving Repr, DecidableEq

/-- `startWhitePageDetection` (lines 85–89): allocates the interval and
    stores its handle on the instance. -/
def startWhitePageDetection (s : AutoCorrectState) (w : BrowserWorld) :
    AutoCorrectState × BrowserWorld :=
  ({ s with whitePageCheckInterval := some w.nextTimerId },
   { w with activeIntervals := w.activeIntervals ++ [w.nextTimerId],
            nextTimerId := w.nextTimerId + 1 })

/-- `startPageBreakDetection` (lines 177–187): creates a `MutationObserver`
    in a local variable and attaches it; the handle is discarded, so the
    instance keeps no way to disconnect it. -/
def startPageBreakDetection (w : BrowserWorld) : BrowserWorld :=
  { w with attachedMutationObservers := w.attachedMutationObservers + 1 }

/-- `startVisualHealing` (lines 256–268): creates a `ResizeObserver` in a
    local variable and attaches it to every element; the handle is
    discarded. -/
def startVisualHealing (w : BrowserWorld) : BrowserWorld :=
  { w with attachedResizeObservers := w.attachedResizeObservers + 1 }

/-- `AutoCorrect.start` (lines 52–68). -/
def start (cfg : AutoCorrectConfig) (s : AutoCorrectState) (w : BrowserWorld) :
    AutoCorrectState × BrowserWorld :=
  if s.isRunning then (s, w)
  else
    let s := { s with isRunning := true }
    let p1 := if cfg.whitePageDetection.enabled then startWhitePageDetection s w
              else (s, w)
    let w1 := if cfg.pageBreakDetection.enabled then startPageBreakDetection p1.2
              else p1.2
    let w2 := if cfg.visualHealing.enabled then startVisualHealing w1 else w1
    (p1.1, w2)

/-- `AutoCorrect.stop` (lines 73–80): clears the running flag and the
    white-page interval — and touches nothing else. -/
def stop (s : AutoCorrectState) (w : BrowserWorld) :
    AutoCorrectState × BrowserWorld :=
  let s := { s with isRunning := false }
  match s.whitePageCheckInterval with
  | some id =>
    ({ s with whitePageCheckInterval := none },
     { w with activeIntervals := w.activeIntervals.filter (fun t => t != id) })
  | none => (s, w)

/-- `AutoCorrect.saveContentSnapshot` (lines 513–521): push the serialized
    surface (`bodyHTML` stands for `document.body.innerHTML`), then drop the
    oldest entry if the history exceeds 5. -/
def saveContentSnapshot (s : AutoCorrectState) (bodyHTML : String) :
    AutoCorrectState :=
  let h := s.contentHistory ++ [bodyHTML]
  { s with lastContentSnapshot := bodyHTML,
           contentHistory := if h.length > 5 then h.tail else h }

/-! ## Layout Anomaly Detector (src/LayoutWatcher.ts) -/

/-- A bounding box as returned by `getBoundingClientRect`; `right` and
    `bottom` are the derived edges of a well-formed `DOMRect`. -/
structure DOMRect where
  left : ℚ
  top : ℚ
  width : ℚ
  height : ℚ
deriving Repr, DecidableEq

/-- `rect.right`. -/
def DOMRect.right (r : DOMRect) : ℚ := r.left + r.width

/-- `rect.bottom`. -/
def DOMRect.bottom (r : DOMRect) : ℚ := r.top + r.height

/-- Computed `position` keyword. -/
inductive CSSPosition where
  | staticPos | relativePos | absolutePos | fixedPos | otherPos
deriving Repr, DecidableEq

/-- Computed `overflow-x` / `overflow-y` keyword. -/
inductive CSSOverflow where
  | visible | hidden | scroll | auto | otherOv
deriving Repr, DecidableEq

/-- Computed `visibility` keyword. -/
inductive CSSVisibility where
  | visibleVis | hiddenVis | otherVis
deriving Repr, DecidableEq

/-- Computed `display` keyword (only `none` is distinguished by the code). -/
inductive CSSDisplay where
  | noneDisp | otherDisp
deriving Repr, DecidableEq

/-- Everything the per-element check reads from the DOM about one element:
    attachment, current box, parent box, and the computed style fields the
    five checks inspect. `clipPathIsNone` is `clipPath === 'none'`,
    `clipIsAuto` is `clip === 'auto'`; `hasTextContent` is the truthiness of
    `element.textContent?.trim()`. -/
structure ElementView where
  inDocument : Bool
  rect : DOMRect
  parentRect : Option DOMRect
  position : CSSPosition
  overflowX : CSSOverflow
  overflowY : CSSOverflow
  clipPathIsNone : Bool
  clipIsAuto : Bool
  visibility : CSSVisibility
  display : CSSDisplay
  opacity : ℚ
  hasTextContent : Bool
  childrenCount : Nat
deriving Repr, DecidableEq

/-- Anomaly classification from src/types.ts. -/
inductive AnomalyType where
  | overflow | clipping | positioning | sizing | visibility
deriving Repr, DecidableEq

/-- Severity scale from src/types.ts. -/
inductive Severity where
  | low | medium | high | critical
deriving Repr, DecidableEq

/-- The fields of an emitted `LayoutAnomaly` that the checks compute
    (description/timestamp/selector are informational strings and wall-clock
    data produced from the same inputs; they are omitted as they carry no
    additional decision content). `boundingRect` is optional in the source
    and the visibility check omits it. -/
structure LayoutAnomaly where
  anomalyType : AnomalyType
  severity : Severity
  boundingRect : Option DOMRect
deriving Repr, DecidableEq

/-- The `thresholds` of `LayoutWatcherConfig`. -/
structure LayoutThresholds where
  overflow : ℚ
  clipping : ℚ
  positioning : ℚ
deriving Repr, DecidableEq

/-- `calculateSeverity` (lines 317–329): bucket by the largest overflow
    ratio relative to the parent box. -/
def calculateSeverity (rect parentRect : DOMRect) : Severity :=
  let overflowFrac :=
    max (max ((rect.right - parentRect.right) / parentRect.width)
             ((parentRect.left - rect.left) / parentRect.width))
        (max ((rect.bottom - parentRect.bottom) / parentRect.height)
             ((parentRect.top - rect.top) / parentRect.height))
  if overflowFrac > 1 / 2 then .critical
  else if overflowFrac > 3 / 10 then .high
  else if overflowFrac > 1 / 10 then .medium
  else .low

/-- `calculateSeverityFromDelta` (lines 334–339). -/
def calculateSeverityFromDelta (delta : ℚ) : Severity :=
  if delta > 100 then .critical
  else if delta > 50 then .high
  else if delta > 20 then .medium
  else .low

/-- `checkOverflowAnomaly` (lines 175–203). -/
def checkOverflowAnomaly (v : ElementView) : List LayoutAnomaly :=
  if v.overflowX = .visible ∨ v.overflowY = .visible then
    match v.parentRect with
    | some parentRect =>
      if (v.rect.right > parentRect.right ∨ v.rect.left < parentRect.left) ∨
         (v.rect.bottom > parentRect.bottom ∨ v.rect.top < parentRect.top) then
        [{ anomalyType := .overflow,
           severity := calculateSeverity v.rect parentRect,
           boundingRect := some v.rect }]
      else []
    | none => []
  else []

/-- `checkClippingAnomaly` (lines 208–231). -/
def checkClippingAnomaly (v : ElementView) : List LayoutAnomaly :=
  if ¬v.clipPathIsNone ∨ ¬v.clipIsAuto then
    if v.rect.width = 0 ∨ v.rect.height = 0 then
      [{ anomalyType := .clipping, severity := .high,
         boundingRect := some v.rect }]
    else []
  else []

/-- `checkPositioningAnomaly` (lines 236–259). `Math.sqrt` over JavaScript
    floats is abstracted as the parameter `sqrtQ`; every theorem states the
    facts it needs about it (e.g. `sqrtQ 0 = 0`). -/
def checkPositioningAnomaly (sqrtQ : ℚ → ℚ) (thresholds : LayoutThresholds)
    (v : ElementView) (baseline : Option DOMRect) : List LayoutAnomaly :=
  match baseline with
  | none => []
  | some b =>
    if v.position = .absolutePos ∨ v.position = .fixedPos then
      let deltaX := |v.rect.left - b.left|
      let deltaY := |v.rect.top - b.top|
      let deltaDistance := sqrtQ (deltaX * deltaX + deltaY * deltaY)
      if deltaDistance > thresholds.positioning * 100 then
        [{ anomalyType := .positioning,
           severity := calculateSeverityFromDelta deltaDistance,
           boundingRect := some v.rect }]
      else []
    else []

/-- `checkSizingAnomaly` (lines 264–282). Division by a zero baseline width
    or height yields `NaN` in JavaScript and `0` in `ℚ`; in both semantics
    the `>` comparison against a non-negative threshold is false, which is
    the only case the theorems below rely on. -/
def checkSizingAnomaly (thresholds : LayoutThresholds) (v : ElementView)
    (baseline : Option DOMRect) : List LayoutAnomaly :=
  match baseline with
  | none => []
  | some b =>
    let widthChange := |v.rect.width - b.width| / b.width
    let heightChange := |v.rect.height - b.height| / b.height
    if widthChange > thresholds.overflow ∨ heightChange > thresholds.overflow then
      [{ anomalyType := .sizing,
         severity := calculateSeverityFromDelta (max widthChange heightChange),
         boundingRect := some v.rect }]
    else []

/-- `checkVisibilityAnomaly` (lines 287–312). -/
def checkVisibilityAnomaly (v : ElementView) : List LayoutAnomaly :=
  if v.visibility = .hiddenVis ∨ v.display = .noneDisp ∨ v.opacity = 0 then
    if v.hasTextContent ∨ v.childrenCount > 0 then
      [{ anomalyType := .visibility, severity := .medium, boundingRect := none }]
    else []
  else []

/-- `checkElementForAnomalies` (lines 142–170): runs the five checks in
    source order against the stored baseline, then updates the baseline to
    the current box; a detached element is purged (`none`) and not checked.
    Returns (emitted anomalies, new baseline entry). -/
def checkElementForAnomalies (sqrtQ : ℚ → ℚ) (thresholds : LayoutThresholds)
    (v : ElementView) (baseline : Option DOMRect) :
    List LayoutAnomaly × Option DOMRect :=
  if ¬v.inDocument then ([], none)
  else
    (checkOverflowAnomaly v ++ checkClippingAnomaly v ++
      checkPositioningAnomaly sqrtQ thresholds v baseline ++
      checkSizingAnomaly thresholds v baseline ++
      checkVisibilityAnomaly v,
     some v.rect)

/-- Whether a list of anomalies contains a drift anomaly, i.e. one of type
    `sizing` or `positioning`. -/
def hasDriftAnomaly (l : List LayoutAnomaly) : Bool :=
  l.any (fun a => a.anomalyType = .sizing ∨ a.anomalyType = .positioning)

/-! ## Theorems -/

/-- C6: while the engine is `Recovering`, a second `execute` call with any
    action returns `false`, leaves the retry counter, the recovering flag
    and all other engine state unchanged, and emits no event — in
    particular it does not invoke the `onRecovery` callback. -/
theorem c6_execute_noop_while_recovering (c : RecoveryEngineConfig)
    (fuel : Nat) (s : RecoveryEngineState) (a : RecoveryAction)
    (h : s.isRecovering = true) :
    execute c fuel s a = (false, s, []) := by
  cases fuel with
  | zero => rfl
  | succ n => simp [execute, h]

/-- Witness for C6 at a concrete recovering state. -/
theorem c6_witness :
    execute { enabled := true, strategies := [.retry], maxRetries := 3 } 7
        { retryCount := 2, isRecovering := true } { strategy := .retry } =
      (false, { retryCount := 2, isRecovering := true }, []) :=
  c6_execute_noop_while_recovering _ 7 _ _ rfl

/-- C10: when the configured custom reporter throws (or rejects), `report`
    catches the exception and completes normally, and the record was
    appended to the queue before the sink was invoked (the `enqueued` event
    precedes the `sinkCall` event). -/
theorem c10_custom_reporter_throw_caught (c : ReporterConfig)
    (delivery : Bool) (q : List GuardianError) (e : GuardianError)
    (sink : GuardianError → Except Unit Unit)
    (hen : c.enabled = true) (hcr : c.customReporter = some sink)
    (hthrow : sink e = .error ()) :
    report c delivery q e =
      .ok (q ++ [e], [RepEvent.enqueued e, RepEvent.sinkCall e]) := by
  simp [report, hen, hcr, hthrow]

/-- Witness for C10: a sink that always throws. -/
theorem c10_witness :
    report { customReporter := some (fun _ => .error ()), enabled := true }
        false [] (mkErr 0) =
      .ok ([mkErr 0], [RepEvent.enqueued (mkErr 0), RepEvent.sinkCall (mkErr 0)]) :=
  c10_custom_reporter_throw_caught _ false [] (mkErr 0) _ rfl rfl rfl

/-- C4 counterexample: with a custom reporter configured, a `report` call
    does NOT leave the batching queue unchanged — reporting one record on
    an empty queue leaves a one-element queue (the record is pushed before
    the sink is consulted). -/
theorem c4_counterexample :
    report { customReporter := some (fun _ => .ok ()), enabled := true }
        false [] (mkErr 0) =
      .ok ([mkErr 0], [RepEvent.enqueued (mkErr 0), RepEvent.sinkCall (mkErr 0)])
    ∧ [mkErr 0] ≠ ([] : List GuardianError) := by
  exact ⟨rfl, by simp⟩

/-- C4 (amended): with a custom reporter configured, `report` first appends
    the record to the pending queue and then hands it to the sink
    immediately; only the size-triggered flush is bypassed for that call
    (no network send occurs), the queue itself grows by the record. -/
theorem c4_custom_reporter_queues_then_sinks (c : ReporterConfig)
    (delivery : Bool) (q : List GuardianError) (e : GuardianError)
    (sink : GuardianError → Except Unit Unit)
    (hen : c.enabled = true) (hcr : c.customReporter = some sink) :
    report c delivery q e =
      .ok (q ++ [e], [RepEvent.enqueued e, RepEvent.sinkCall e]) := by
  cases hs : sink e with
  | ok u => simp [report, hen, hcr, hs]
  | error u => simp [report, hen, hcr, hs]

/-- Witness for the amended C4 at a concrete succeeding sink. -/
theorem c4_witness :
    report { customReporter := some (fun _ => .ok ()), enabled := true }
        false [mkErr 1] (mkErr 2) =
      .ok ([mkErr 1, mkErr 2],
           [RepEvent.enqueued (mkErr 2), RepEvent.sinkCall (mkErr 2)]) :=
  c4_custom_reporter_queues_then_sinks _ false [mkErr 1] (mkErr 2) _ rfl rfl

/-- With no endpoint configured, one enabled `report` call appends the record
    and emits no network send. -/
lemma report_no_endpoint_step (c : ReporterConfig) (delivery : Bool)
    (q : List GuardianError) (e : GuardianError)
    (hep : c.endpoint = none) (hen : c.enabled = true) :
    ∃ ev, report c delivery q e = .ok (q ++ [e], ev) ∧
      ev.filter RepEvent.isNetSend = [] := by
  cases hcr : c.customReporter with
  | some sink =>
    refine ⟨[RepEvent.enqueued e, RepEvent.sinkCall e], ?_, ?_⟩
    · cases hs : sink e with
      | ok u => simp [report, hen, hcr, hs]
      | error u => simp [report, hen, hcr, hs]
    · simp [RepEvent.isNetSend]
  | none =>
    refine ⟨[RepEvent.enqueued e], ?_, ?_⟩
    · simp [report, hen, hcr, flushWith, hep]
    · simp [RepEvent.isNetSend]

/-- Folding enabled reports with no endpoint accumulates all records in
    order and never emits a network send. -/
lemma reportRun_no_endpoint_aux (c : ReporterConfig) (delivery : Bool)
    (hep : c.endpoint = none) (hen : c.enabled = true) :
    ∀ (errs q0 : List GuardianError) (evs0 : List RepEvent),
      (errs.foldl (reportStep c delivery) (q0, evs0)).1 = q0 ++ errs ∧
      ((errs.foldl (reportStep c delivery) (q0, evs0)).2.filter
          RepEvent.isNetSend) = evs0.filter RepEvent.isNetSend := by
  intro errs
  induction errs with
  | nil => intro q0 evs0; simp
  | cons e rest ih =>
    intro q0 evs0
    obtain ⟨ev, hrep, hev⟩ := report_no_endpoint_step c delivery q0 e hep hen
    have hstep : reportStep c delivery (q0, evs0) e = (q0 ++ [e], evs0 ++ ev) := by
      simp [reportStep, hrep]
    rw [List.foldl_cons, hstep]
    obtain ⟨h1, h2⟩ := ih (q0 ++ [e]) (evs0 ++ ev)
    refine ⟨by rw [h1]; simp, ?_⟩
    rw [h2, List.filter_append, hev, List.append_nil]

/-- C9: for every sequence of reports made while no endpoint is configured
    (and the reporter is enabled), no network send is ever issued, the queue
    accumulates every reported record in order, and `flush` without an
    endpoint is a no-op returning with the queue unchanged. -/
theorem c9_no_endpoint_never_sends (c : ReporterConfig) (delivery : Bool)
    (q0 errs : List GuardianError)
    (hep : c.endpoint = none) (hen : c.enabled = true) :
    (reportRun c delivery q0 errs).1 = q0 ++ errs ∧
    ((reportRun c delivery q0 errs).2.filter RepEvent.isNetSend) = [] ∧
    ∀ q, flush c delivery q = (q, []) := by
  obtain ⟨h1, h2⟩ := reportRun_no_endpoint_aux c delivery hep hen errs q0 []
  exact ⟨h1, by simpa using h2, fun q => by simp [flush, flushWith, hep]⟩

/-- Witness for C9: ten records (the default batch size) reported with no
    endpoint all accumulate and nothing is sent. -/
theorem c9_witness :
    (reportRun { enabled := true } false []
        ((List.range 10).map mkErr)).1 = [] ++ (List.range 10).map mkErr ∧
    ((reportRun { enabled := true } false []
        ((List.range 10).map mkErr)).2.filter RepEvent.isNetSend) = [] :=
  ⟨(c9_no_endpoint_never_sends _ false _ _ rfl rfl).1,
   (c9_no_endpoint_never_sends _ false _ _ rfl rfl).2.1⟩

set_option maxRecDepth 20000 in
/-- C1 counterexample: with endpoint configured, batch size 10 and delivery
    always failing, 101 sequential `report` calls leave 101 records queued —
    the queued count exceeds the claimed cap of 100 (the `< 100` guard in
    `flush` only controls whether a failed batch is restored; `report`
    itself never drops records). -/
theorem c1_counterexample :
    (reportRun { endpoint := some (toString 0), batchSize := some 10,
                 enabled := true }
        false [] (List.replicate 101 (mkErr 0))).1.length = 101 ∧
      100 < 101 := by
  exact ⟨by decide, by decide⟩

/-- C1 (amended): on delivery failure the dequeued batch is restored intact
    to the front of the queue provided fewer than 100 records accumulated in
    the queue during the send (always the case in sequential operation);
    otherwise the whole batch is dropped at once. No global 100-record cap
    holds: repeated report/failing-flush sequences can exceed 100 records. -/
theorem c1_failed_flush_requeues (c : ReporterConfig) (ep : String)
    (delivery : Bool) (arrivals q : List GuardianError)
    (hep : c.endpoint = some ep) (hq : q ≠ []) (hfail : delivery = false) :
    flushWith c delivery arrivals q =
      ((if arrivals.length < 100 then q ++ arrivals else arrivals),
       [RepEvent.netSend ep q]) := by
  have hlen : ¬ q.length = 0 := by simpa using hq
  simp [flushWith, hep, hlen, hfail]

/-- Witness for the amended C1: a failed flush of a two-record queue with no
    interleaved arrivals restores both records. -/
theorem c1_witness :
    flushWith { endpoint := some (toString 0), enabled := true } false []
        [mkErr 0, mkErr 1] =
      ((if ([] : List GuardianError).length < 100 then
          [mkErr 0, mkErr 1] ++ [] else []),
       [RepEvent.netSend (toString 0) [mkErr 0, mkErr 1]]) :=
  c1_failed_flush_requeues _ (toString 0) false [] [mkErr 0, mkErr 1]
    rfl (by simp) rfl

/-- C2: evaluation at the failing input. On an enabled, Idle engine with
    `maxRetries = 1` and an always-failing strategy (fallback with no
    fallback component anywhere), `execute` increments the retry counter
    and re-invokes itself — but the recursive call returns `false`
    immediately at the `isRecovering` guard, so only ONE strategy attempt
    happens and the engine is left with `isRecovering = true` (stuck
    `Recovering`, not back in `Idle` as the spec requires). -/
theorem c2_engine_stuck_after_failed_retry :
    execute { enabled := true, strategies := [.fallback], maxRetries := 1 } 5
        { retryCount := 0, isRecovering := false } { strategy := .fallback } =
      (false, { retryCount := 1, isRecovering := true },
       [REvent.onRecovery { strategy := .fallback }]) := by
  rfl

/-- C3 counterexample: with strategy `retry` and `maxRetries = 2`, `execute`
    reports SUCCESS after exactly one attempt with a single 1000 ms backoff
    wait — not failure after 3 attempts with 1000 ms and 2000 ms delays
    (the retry strategy never runs the caller's operation; it reports
    success whenever an attempt is still allowed). -/
theorem c3_counterexample :
    execute { enabled := true, strategies := [.retry], maxRetries := 2 } 5
        { retryCount := 0, isRecovering := false } { strategy := .retry } =
      (true, { retryCount := 0, isRecovering := false },
       [REvent.onRecovery { strategy := .retry }, REvent.delayMs 1000])
    ∧ attemptCount
        [REvent.onRecovery { strategy := .retry }, REvent.delayMs 1000] = 1 := by
  exact ⟨rfl, rfl⟩

/-- C3 (amended): executing a retry-strategy action on an enabled, Idle
    engine performs exactly one attempt: when the action's attempt count
    (default 0) is below the effective maximum, the strategy waits
    `backoffDelay` milliseconds and reports success — the actual retried
    operation is the caller's responsibility. The backoff schedule is
    1000 ms at attempt 0, 2000 ms at attempt 1, capped at 10000 ms for
    attempt counts ≥ 4. -/
theorem c3_retry_single_attempt (c : RecoveryEngineConfig)
    (s : RecoveryEngineState) (a : RecoveryAction) (fuel : Nat)
    (hen : c.enabled = true) (hrec : s.isRecovering = false)
    (hstrat : a.strategy = .retry)
    (hcnt : jsOrNat a.retryCount 0 < jsOrNat a.maxRetries c.maxRetries) :
    execute c (fuel + 1) s a =
      (true, { retryCount := 0, isRecovering := false },
       [REvent.onRecovery a,
        REvent.delayMs (backoffDelay (jsOrNat a.retryCount 0))])
    ∧ backoffDelay 0 = 1000 ∧ backoffDelay 1 = 2000
    ∧ ∀ r, 4 ≤ r → backoffDelay r = 10000 := by
  refine ⟨?_, rfl, rfl, ?_⟩
  · simp [execute, hen, hrec, performRecovery, hstrat, handleRetry,
          if_neg (not_le.mpr hcnt)]
  · intro r hr
    have h16 : (16 : ℕ) ≤ 2 ^ r := by
      calc (16 : ℕ) = 2 ^ 4 := rfl
        _ ≤ 2 ^ r := Nat.pow_le_pow_right (by norm_num) hr
    have : (10000 : ℕ) ≤ 1000 * 2 ^ r :=
      le_trans (by norm_num) (Nat.mul_le_mul_left 1000 h16)
    exact min_eq_right this

/-- Witness for the amended C3 at the claim's own configuration
    (`maxRetries = 2`, fresh retry action, Idle engine). -/
theorem c3_witness :
    execute { enabled := true, strategies := [.retry], maxRetries := 2 } 1
        { retryCount := 0, isRecovering := false } { strategy := .retry } =
      (true, { retryCount := 0, isRecovering := false },
       [REvent.onRecovery { strategy := .retry },
        REvent.delayMs (backoffDelay (jsOrNat none 0))]) :=
  (c3_retry_single_attempt _ _ _ 0 rfl rfl rfl (by decide)).1

/-- C5: evaluation at the failing input. Starting the engine with all three
    sub-checks enabled and then calling `stop()` clears the white-page
    interval but leaves the page-break `MutationObserver` and the
    visual-healing `ResizeObserver` attached (the source keeps them in
    local variables and never disconnects them), so their monitoring
    callbacks keep firing after `stop()` returns. -/
theorem c5_stop_leaves_observers_attached :
    stop
      (start
        { enabled := true,
          whitePageDetection :=
            { enabled := true, threshold := 1, checkInterval := 1000 },
          pageBreakDetection :=
            { enabled := true, selectors := [], minHeight := 50 },
          visualHealing := { enabled := true, strategies := [] } }
        { isRunning := false, whitePageCheckInterval := none,
          lastContentSnapshot := String.mk [], contentHistory := [] }
        { activeIntervals := [], nextTimerId := 0,
          attachedMutationObservers := 0, attachedResizeObservers := 0 }).1
      (start
        { enabled := true,
          whitePageDetection :=
            { enabled := true, threshold := 1, checkInterval := 1000 },
          pageBreakDetection :=
            { enabled := true, selectors := [], minHeight := 50 },
          visualHealing := { enabled := true, strategies := [] } }
        { isRunning := false, whitePageCheckInterval := none,
          lastContentSnapshot := String.mk [], contentHistory := [] }
        { activeIntervals := [], nextTimerId := 0,
          attachedMutationObservers := 0, attachedResizeObservers := 0 }).2 =
      ({ isRunning := false, whitePageCheckInterval := none,
         lastContentSnapshot := String.mk [], contentHistory := [] },
       { activeIntervals := [], nextTimerId := 1,
         attachedMutationObservers := 1, attachedResizeObservers := 1 }) ∧
      (1 : Nat) ≠ 0 := by
  exact ⟨rfl, by simp⟩

/-- An unchanged box yields no positioning anomaly: the Euclidean distance
    is `sqrt 0` and the threshold comparison fails for non-negative
    thresholds. -/
lemma checkPositioningAnomaly_self (sqrtQ : ℚ → ℚ) (th : LayoutThresholds)
    (v : ElementView) (h0 : sqrtQ 0 = 0) (hth : 0 ≤ th.positioning) :
    checkPositioningAnomaly sqrtQ th v (some v.rect) = [] := by
  have hnot : ¬ (0 : ℚ) > th.positioning * 100 :=
    not_lt.mpr (mul_nonneg hth (by norm_num))
  simp [checkPositioningAnomaly, h0, hnot]

/-- An unchanged box yields no sizing anomaly: both relative deltas are
    zero and the threshold comparison fails for a non-negative threshold. -/
lemma checkSizingAnomaly_self (th : LayoutThresholds) (v : ElementView)
    (hth : 0 ≤ th.overflow) :
    checkSizingAnomaly th v (some v.rect) = [] := by
  have hnot : ¬ (0 : ℚ) > th.overflow := not_lt.mpr hth
  simp [checkSizingAnomaly, hnot]

/-- Splitting `hasDriftAnomaly` over list concatenation. -/
lemma hasDriftAnomaly_append (l1 l2 : List LayoutAnomaly) :
    hasDriftAnomaly (l1 ++ l2) = (hasDriftAnomaly l1 || hasDriftAnomaly l2) := by
  simp [hasDriftAnomaly]

/-- Every anomaly the overflow check emits is of type `overflow`. -/
lemma checkOverflowAnomaly_mem (v : ElementView) :
    ∀ a ∈ checkOverflowAnomaly v, a.anomalyType = AnomalyType.overflow := by
  intro a ha
  unfold checkOverflowAnomaly at ha
  repeat' split at ha
  all_goals simp_all

/-- Every anomaly the clipping check emits is of type `clipping`. -/
lemma checkClippingAnomaly_mem (v : ElementView) :
    ∀ a ∈ checkClippingAnomaly v, a.anomalyType = AnomalyType.clipping := by
  intro a ha
  unfold checkClippingAnomaly at ha
  repeat' split at ha
  all_goals simp_all

/-- Every anomaly the visibility check emits is of type `visibility`. -/
lemma checkVisibilityAnomaly_mem (v : ElementView) :
    ∀ a ∈ checkVisibilityAnomaly v, a.anomalyType = AnomalyType.visibility := by
  intro a ha
  unfold checkVisibilityAnomaly at ha
  repeat' split at ha
  all_goals simp_all

/-- The overflow check never emits a sizing or positioning anomaly. -/
lemma checkOverflowAnomaly_not_drift (v : ElementView) :
    hasDriftAnomaly (checkOverflowAnomaly v) = false := by
  simp only [hasDriftAnomaly, List.any_eq_false, decide_eq_false_iff_not]
  intro a ha
  simp [checkOverflowAnomaly_mem v a ha]

/-- The clipping check never emits a sizing or positioning anomaly. -/
lemma checkClippingAnomaly_not_drift (v : ElementView) :
    hasDriftAnomaly (checkClippingAnomaly v) = false := by
  simp only [hasDriftAnomaly, List.any_eq_false, decide_eq_false_iff_not]
  intro a ha
  simp [checkClippingAnomaly_mem v a ha]

/-- The visibility check never emits a sizing or positioning anomaly. -/
lemma checkVisibilityAnomaly_not_drift (v : ElementView) :
    hasDriftAnomaly (checkVisibilityAnomaly v) = false := by
  simp only [hasDriftAnomaly, List.any_eq_false, decide_eq_false_iff_not]
  intro a ha
  simp [checkVisibilityAnomaly_mem v a ha]

/-- C7: when an element's bounding box is identical between two consecutive
    checks — so the baseline recorded at the end of the first check equals
    the current box — the second check emits no sizing and no positioning
    anomaly for that element, for any non-negative configured thresholds
    (and any square-root implementation with `sqrt 0 = 0`). -/
theorem c7_no_drift_when_box_unchanged (sqrtQ : ℚ → ℚ)
    (th : LayoutThresholds) (v : ElementView)
    (h0 : sqrtQ 0 = 0) (hpos : 0 ≤ th.positioning) (hov : 0 ≤ th.overflow) :
    hasDriftAnomaly (checkElementForAnomalies sqrtQ th v (some v.rect)).1 = false := by
  by_cases hdoc : v.inDocument = true
  · have hp := checkPositioningAnomaly_self sqrtQ th v h0 hpos
    have hs := checkSizingAnomaly_self th v hov
    rw [checkElementForAnomalies, if_neg (by simp [hdoc])]
    simp only [hp, hs, List.append_nil, List.nil_append]
    rw [hasDriftAnomaly_append, hasDriftAnomaly_append,
        checkOverflowAnomaly_not_drift, checkClippingAnomaly_not_drift,
        checkVisibilityAnomaly_not_drift]
    rfl
  · simp [checkElementForAnomalies, hdoc, hasDriftAnomaly]

/-- Witness for C7: concrete element with an unchanged box, zero thresholds
    and the identity as the square-root implementation. -/
theorem c7_witness :
    hasDriftAnomaly
      (checkElementForAnomalies (fun x => x)
        { overflow := 0, clipping := 0, positioning := 0 }
        { inDocument := true,
          rect := { left := 3, top := 4, width := 10, height := 20 },
          parentRect := some { left := 0, top := 0, width := 5, height := 5 },
          position := .absolutePos, overflowX := .visible,
          overflowY := .visible, clipPathIsNone := true, clipIsAuto := true,
          visibility := .visibleVis, display := .otherDisp, opacity := 1,
          hasTextContent := true, childrenCount := 2 }
        (some { left := 3, top := 4, width := 10, height := 20 })).1 = false :=
  c7_no_drift_when_box_unchanged (fun x => x) _ _ rfl le_rfl le_rfl

/-- C8: snapshot history is bounded and strictly FIFO. Six saves starting
    from an empty history leave exactly the last five snapshots in order;
    in general a save on a history of at most 5 entries keeps it at most 5,
    appending the newest at the end and evicting exactly the oldest entry
    when the history is at capacity. -/
theorem c8_snapshot_history_bounded_fifo :
    ((List.range 6).foldl
        (fun s n => saveContentSnapshot s (toString n))
        { isRunning := false, whitePageCheckInterval := none,
          lastContentSnapshot := String.mk [], contentHistory := [] }).contentHistory
      = [toString 1, toString 2, toString 3, toString 4, toString 5]
    ∧ ∀ (s : AutoCorrectState) (snap : String), s.contentHistory.length ≤ 5 →
        ((saveContentSnapshot s snap).contentHistory.length ≤ 5 ∧
          (saveContentSnapshot s snap).contentHistory =
            (if s.contentHistory.length = 5 then s.contentHistory.tail ++ [snap]
             else s.contentHistory ++ [snap])) := by
  refine ⟨by rfl, ?_⟩
  intro s snap h
  by_cases h5 : s.contentHistory.length = 5
  · cases hl : s.contentHistory with
    | nil => rw [hl] at h5; simp at h5
    | cons a t =>
      have ht : t.length = 4 := by
        rw [hl] at h5; simpa using h5
      constructor
      · simp [saveContentSnapshot, hl, ht]
      · simp [saveContentSnapshot, hl, ht, h5]
  · have hlt : s.contentHistory.length < 5 := lt_of_le_of_ne h h5
    have hnot : ¬ (s.contentHistory ++ [snap]).length > 5 := by
      simp only [List.length_append, List.length_singleton]
      omega
    constructor
    · simp only [saveContentSnapshot]
      rw [if_neg hnot]
      simp only [List.length_append, List.length_singleton]
      omega
    · simp only [saveContentSnapshot]
      rw [if_neg hnot, if_neg h5]

/-- Witness for C8: a save on a full five-entry history evicts the oldest
    entry and appends the new snapshot at the end. -/
theorem c8_witness :
    (saveContentSnapshot
        { isRunning := false, whitePageCheckInterval := none,
          lastContentSnapshot := String.mk [],
          contentHistory :=
            [toString 1, toString 2, toString 3, toString 4, toString 5] }
        (toString 6)).contentHistory.length ≤ 5 ∧
    (saveContentSnapshot
        { isRunning := false, whitePageCheckInterval := none,
          lastContentSnapshot := String.mk [],
          contentHistory :=
            [toString 1, toString 2, toString 3, toString 4, toString 5] }
        (toString 6)).contentHistory =
      (if ([toString 1, toString 2, toString 3, toString 4,
            toString 5] : List String).length = 5 then
        ([toString 1, toString 2, toString 3, toString 4,
          toString 5] : List String).tail ++ [toString 6]
       else [toString 1, toString 2, toString 3, toString 4,
             toString 5] ++ [toString 6]) :=
  c8_snapshot_history_bounded_fifo.2
    { isRunning := false, whitePageCheckInterval := none,
      lastContentSnapshot := String.mk [],
      contentHistory :=
        [toString 1, toString 2, toString 3, toString 4, toString 5] }
    (toString 6) (by decide)

end ReactGuardian
